import Mathlib

/-
Shallow embedding of src/main.go of mfojtik/migrate-to-deployment.

The program migrates OpenShift DeploymentConfigs to Kubernetes Deployments.
The orchestration lives in MigrateOptions.Run (src/main.go lines 97-150):
per name it fetches the DeploymentConfig, pauses it and persists the update,
calls the convert function field, forces the produced Deployment paused,
creates it, lists the ReplicationControllers selected by the config's label,
and calls the migrateHistory function field.

The embedding records every gateway call (the typed-client calls the source
makes) as an Event, so the value of Run is the outcome paired with the exact
ordered trace of gateway operations. Go-specific behaviours are modelled
explicitly: calling a nil function value and dereferencing a nil pointer are
distinguished panic outcomes, and the local variable
  var deployment *appsv1.Deployment
of line 112 is an Option Deployment whose nil value is none.
-/

/-- Error values returned by the gateway (the API clients). Run treats them
opaquely and returns the first one it sees; the constructors follow the
Kubernetes error taxonomy the program can encounter. -/
inductive GoErr where
  | notFound (ns name : String)
  | alreadyExists (ns name : String)
  | conflict (msg : String)
  | transport (msg : String)
  | validationError (msg : String)
  deriving Repr, DecidableEq

/-- The part of an osappsv1.DeploymentConfig spec the program touches:
Spec.Paused is written at line 106; Replicas stands for the rest of the
spec, carried along untouched. -/
structure DeploymentConfigSpec where
  Paused : Bool
  Replicas : Nat
  deriving Repr, DecidableEq

/-- An osappsv1.DeploymentConfig as used by Run: object metadata identity
plus the spec fields above. -/
structure DeploymentConfig where
  Namespace : String
  Name : String
  Spec : DeploymentConfigSpec
  deriving Repr, DecidableEq

/-- The part of an appsv1.Deployment spec the program touches: Spec.Paused is
written at line 121; Replicas stands for the rest of the spec. -/
structure DeploymentSpec where
  Paused : Bool
  Replicas : Nat
  deriving Repr, DecidableEq

/-- An appsv1.Deployment as used by Run. -/
structure Deployment where
  Namespace : String
  Name : String
  Spec : DeploymentSpec
  deriving Repr, DecidableEq

/-- A corev1.ReplicationController as used by Run: the program only reads
rc.Name (for progress output) and passes the list to migrateHistory. -/
structure ReplicationController where
  Namespace : String
  Name : String
  Replicas : Nat
  deriving Repr, DecidableEq

/-- One gateway operation performed by Run, one constructor per typed-client
call site in src/main.go. The source performs no delete call and no write to
the replication-controller collection (its only operation on that collection
is the read-only List at line 131), so no such constructor exists.
convertCall and migrateHistoryCall record the invocations of the two
function-valued fields with the arguments passed. -/
inductive Event where
  | get (ns name : String)
  | update (dc : DeploymentConfig)
  | convertCall (dc : DeploymentConfig) (target : Option Deployment)
  | create (d : Deployment)
  | list (ns selector : String)
  | migrateHistoryCall (d : Deployment) (rcs : List ReplicationController)
  deriving Repr, DecidableEq

/-- The Resource Gateway: the operations of the three typed clients that Run
invokes. getDC and updateDC model OsAppsClient.DeploymentConfigs(ns),
createDeployment models AppsClient.Deployments(ns).Create, and listRCs models
CoreClient.ReplicationControllers(ns).List (returning the Items of the
result), with the label-selector string as second argument. -/
structure Gateway where
  getDC : String → String → Except GoErr DeploymentConfig
  updateDC : String → DeploymentConfig → Except GoErr DeploymentConfig
  createDeployment : String → Deployment → Except GoErr Deployment
  listRCs : String → String → Except GoErr (List ReplicationController)

/-- Semantics of a value of the field
  convert func(*osappsv1.DeploymentConfig, *appsv1.Deployment) error
as called at line 115. The second argument is the target pointer the caller
passes (none models a nil pointer). The Except payload is the value of the
caller's pointer after the call returns without error: the embedding leaves
it to the function so every realizable converter behaviour is covered. A
converter that returns the pointer it was given models the semantics Go
forces at this call site (a callee cannot change the caller's pointer
variable, and the caller passes nil); a converter returning some deployment
models the allocate-and-populate contract the converter is documented to
have. -/
def ConvertFn : Type :=
  DeploymentConfig → Option Deployment → Except GoErr (Option Deployment)

/-- Semantics of a value of the field
  migrateHistory func(*appsv1.Deployment, []corev1.ReplicationController) error
as called at line 144: it receives the created deployment and the listed
replication controllers and returns an error or succeeds. -/
def MigrateHistoryFn : Type :=
  Deployment → List ReplicationController → Except GoErr Unit

/-- The fields of MigrateOptions (src/main.go lines 45-59) that Run reads.
The Output writer, kubeconfig path and the three client fields are external
concerns; the clients' behaviour enters through the Gateway argument of Run.
convert and migrateHistory are function-valued fields; none models a nil Go
function value. -/
structure MigrateOptions where
  DeploymentConfigNames : List String
  Namespace : String
  convert : Option ConvertFn
  migrateHistory : Option MigrateHistoryFn

/-- Line 106: dc.Spec.Paused = true. -/
def pauseDC (dc : DeploymentConfig) : DeploymentConfig :=
  { dc with Spec := { dc.Spec with Paused := true } }

/-- Line 121: deployment.Spec.Paused = true, applied to the value behind a
non-nil pointer. -/
def pauseDeployment (d : Deployment) : Deployment :=
  { d with Spec := { d.Spec with Paused := true } }

/-- Line 130: labels.SelectorFromValidatedSet over the one-entry label set,
rendered as the selector string passed to List. -/
def selectorFor (name : String) : String :=
  "openshift.io/deployment-config.name=" ++ name

/-- How processing a name ends. Go panics (calling a nil function value,
dereferencing a nil pointer) are distinguished from returned errors. -/
inductive PanicReason where
  | nilFunctionCall
  | nilPointerDeref
  deriving Repr, DecidableEq

/-- Result of Run or of one loop iteration: normal completion, a returned
error (Run's error return), or a runtime panic. -/
inductive Outcome where
  | ok
  | goError (e : GoErr)
  | panicked (r : PanicReason)
  deriving Repr, DecidableEq

/-- The body of the per-name loop of MigrateOptions.Run
(src/main.go lines 99-147), for one name. Step by step:
line 100 Get; line 106 pause; line 107 Update; line 112 the nil-initialized
local deployment pointer; line 115 the convert call with that nil pointer as
target; line 121 the paused write through the same pointer (a nil
dereference when the pointer is still nil); line 124 Create, whose returned
deployment is the one handed on; lines 130-131 the label-selector List of
replication controllers; line 144 the migrateHistory call with the created
deployment and the listed items. A nil convert or migrateHistory field
panics at its call. The returned trace lists the gateway operations in the
order they were issued. -/
def runOne (m : MigrateOptions) (gw : Gateway) (name : String) :
    Outcome × List Event :=
  match gw.getDC m.Namespace name with
  | .error e => (.goError e, [.get m.Namespace name])
  | .ok dc0 =>
    let dc := pauseDC dc0
    match gw.updateDC m.Namespace dc with
    | .error e => (.goError e, [.get m.Namespace name, .update dc])
    | .ok _ =>
      match m.convert with
      | none =>
        (.panicked .nilFunctionCall, [.get m.Namespace name, .update dc])
      | some f =>
        match f dc none with
        | .error e =>
          (.goError e,
            [.get m.Namespace name, .update dc, .convertCall dc none])
        | .ok none =>
          (.panicked .nilPointerDeref,
            [.get m.Namespace name, .update dc, .convertCall dc none])
        | .ok (some d0) =>
          let d := pauseDeployment d0
          match gw.createDeployment m.Namespace d with
          | .error e =>
            (.goError e,
              [.get m.Namespace name, .update dc, .convertCall dc none,
               .create d])
          | .ok newDeployment =>
            match gw.listRCs m.Namespace (selectorFor dc.Name) with
            | .error e =>
              (.goError e,
                [.get m.Namespace name, .update dc, .convertCall dc none,
                 .create d, .list m.Namespace (selectorFor dc.Name)])
            | .ok rcs =>
              match m.migrateHistory with
              | none =>
                (.panicked .nilFunctionCall,
                  [.get m.Namespace name, .update dc, .convertCall dc none,
                   .create d, .list m.Namespace (selectorFor dc.Name)])
              | some g =>
                match g newDeployment rcs with
                | .error e =>
                  (.goError e,
                    [.get m.Namespace name, .update dc, .convertCall dc none,
                     .create d, .list m.Namespace (selectorFor dc.Name),
                     .migrateHistoryCall newDeployment rcs])
                | .ok _ =>
                  (.ok,
                    [.get m.Namespace name, .update dc, .convertCall dc none,
                     .create d, .list m.Namespace (selectorFor dc.Name),
                     .migrateHistoryCall newDeployment rcs])

/-- The loop of MigrateOptions.Run over the name list (line 98): names are
processed one at a time in list order; the first non-ok iteration ends the
run (an error is returned at once, a panic unwinds), so later names are not
processed. Traces of completed iterations accumulate in order. -/
def runList (m : MigrateOptions) (gw : Gateway) :
    List String → Outcome × List Event
  | [] => (.ok, [])
  | name :: rest =>
    let r := runOne m gw name
    match r.1 with
    | .ok =>
      let rr := runList m gw rest
      (rr.1, r.2 ++ rr.2)
    | .goError e => (.goError e, r.2)
    | .panicked p => (.panicked p, r.2)

/-- MigrateOptions.Run (src/main.go lines 97-150): iterate the loop body over
DeploymentConfigNames. -/
def MigrateOptions.Run (m : MigrateOptions) (gw : Gateway) :
    Outcome × List Event :=
  runList m gw m.DeploymentConfigNames

/-- MigrateOptions.Validate (src/main.go lines 61-67): errors when os.Args
has length one (only the program name), otherwise stores os.Args[1:] — every
raw token after the program name, flags included — as
DeploymentConfigNames. The osArgs argument is the full os.Args list. -/
def MigrateOptions.Validate (m : MigrateOptions) (osArgs : List String) :
    Except String MigrateOptions :=
  if osArgs.length = 1 then
    .error "deployment config name(s) must be specified\n"
  else
    .ok { m with DeploymentConfigNames := osArgs.drop 1 }

/-- The options value as NewMigrateCommand builds it (src/main.go line 153):
only the Output writer is set there; the convert and migrateHistory function
fields are assigned nowhere in the program, so they stay nil (none). The
namespace flag and Validate later fill Namespace and DeploymentConfigNames,
modelled as parameters. -/
def newMigrateOptions (ns : String) (names : List String) : MigrateOptions :=
  { DeploymentConfigNames := names
    Namespace := ns
    convert := none
    migrateHistory := none }

/-- In-order concatenation of the per-name traces of the loop body. -/
def tracesOf (m : MigrateOptions) (gw : Gateway) : List String → List Event
  | [] => []
  | name :: rest => (runOne m gw name).2 ++ tracesOf m gw rest

/-- Recognizes the Update call on the legacy-config collection. -/
def Event.isUpdate : Event → Bool
  | .update _ => true
  | _ => false

/-- Recognizes the Create call on the deployment collection. -/
def Event.isCreate : Event → Bool
  | .create _ => true
  | _ => false

/-- Recognizes the Get call on the legacy-config collection. -/
def Event.isGet : Event → Bool
  | .get _ _ => true
  | _ => false

/-- Recognizes the List call on the replication-controller collection. -/
def Event.isList : Event → Bool
  | .list _ _ => true
  | _ => false

/-- Fixture: the DeploymentConfig named web in namespace demo, unpaused, with
3 replicas, as the gateway fixtures below serve it. -/
def dcWeb : DeploymentConfig :=
  { Namespace := "demo", Name := "web", Spec := { Paused := false, Replicas := 3 } }

/-- Fixture: a converter that returns without allocating the target — it
hands back exactly the pointer it was given. This is the behaviour Go forces
at the line 115 call site, where the passed pointer is nil and the callee
cannot change the caller's variable. -/
def convertNoAlloc : ConvertFn := fun _ target => Except.ok target

/-- Fixture: a converter following the documented contract — it allocates a
fresh Deployment from the config, leaving Paused at its false default. -/
def convertAlloc : ConvertFn := fun dc _ =>
  Except.ok (some
    { Namespace := dc.Namespace
      Name := dc.Name
      Spec := { Paused := false, Replicas := dc.Spec.Replicas } })

/-- Fixture: a history migration that always succeeds. -/
def mhOk : MigrateHistoryFn := fun _ _ => Except.ok ()

/-- Fixture gateway: every operation succeeds; Get serves a fresh unpaused
config with 3 replicas, Update and Create echo their argument, List finds no
replication controllers. -/
def gwOk : Gateway :=
  { getDC := fun ns n =>
      Except.ok { Namespace := ns, Name := n, Spec := { Paused := false, Replicas := 3 } }
    updateDC := fun _ dc => Except.ok dc
    createDeployment := fun _ d => Except.ok d
    listRCs := fun _ _ => Except.ok [] }

/-- Fixture gateway: as gwOk, but creating any deployment fails with
AlreadyExists, and List finds two historical replication controllers. -/
def gwCreateFails : Gateway :=
  { getDC := fun ns n =>
      Except.ok { Namespace := ns, Name := n, Spec := { Paused := false, Replicas := 3 } }
    updateDC := fun _ dc => Except.ok dc
    createDeployment := fun ns d => Except.error (GoErr.alreadyExists ns d.Name)
    listRCs := fun _ _ => Except.ok [] }

/-- Fixture options: one name, converter present but non-allocating,
history migration present. -/
def mNoAlloc : MigrateOptions :=
  { DeploymentConfigNames := ["web"]
    Namespace := "demo"
    convert := some convertNoAlloc
    migrateHistory := some mhOk }

/-- Fixture options: names web and api, allocating converter, succeeding
history migration. -/
def mAlloc : MigrateOptions :=
  { DeploymentConfigNames := ["web", "api"]
    Namespace := "demo"
    convert := some convertAlloc
    migrateHistory := some mhOk }

/-- Recognizes the call of the convert function field. -/
def Event.isConvertCall : Event → Bool
  | .convertCall _ _ => true
  | _ => false

/-- Recognizes the call of the migrateHistory function field. -/
def Event.isMigrateHistoryCall : Event → Bool
  | .migrateHistoryCall _ _ => true
  | _ => false

/-- Fixture options: names web then api, allocating converter, succeeding
history migration; paired with gwCreateFails to exercise a failing create. -/
def mCreateFails : MigrateOptions :=
  { DeploymentConfigNames := ["web", "api"]
    Namespace := "demo"
    convert := some convertAlloc
    migrateHistory := some mhOk }

/-- Fixture: the Deployment for web as the allocating converter returns it,
Paused left false. -/
def dWebUnpaused : Deployment :=
  { Namespace := "demo", Name := "web", Spec := { Paused := false, Replicas := 3 } }

/-- Fixture: the Deployment for web with Paused forced true. -/
def dWebPaused : Deployment :=
  { Namespace := "demo", Name := "web", Spec := { Paused := true, Replicas := 3 } }

/-- Claim C1: at the convert step (line 115) the target the orchestrator
hands to the converter is the nil pointer, recorded as none in the
convertCall event, and the very next action (line 121) writes Spec.Paused
through that same pointer; so when the converter returns with the target
still unallocated, the iteration ends in a nil-dereference panic immediately
after the convert call, with no further gateway operation. -/
theorem runOne_nil_target_deref (m : MigrateOptions) (gw : Gateway)
    (name : String) (f : ConvertFn) (dc0 dcU : DeploymentConfig)
    (hget : gw.getDC m.Namespace name = Except.ok dc0)
    (hupd : gw.updateDC m.Namespace (pauseDC dc0) = Except.ok dcU)
    (hconv : m.convert = some f)
    (hf : f (pauseDC dc0) none = Except.ok none) :
    runOne m gw name =
      (Outcome.panicked PanicReason.nilPointerDeref,
       [Event.get m.Namespace name, Event.update (pauseDC dc0),
        Event.convertCall (pauseDC dc0) none]) := by
  simp only [runOne, hget, hupd, hconv, hf]

/-- Witness for C1: with the gateway fixture and the non-allocating
converter, processing web hits the nil dereference right after the convert
call. -/
theorem runOne_nil_target_deref_witness :
    gwOk.getDC "demo" "web" = Except.ok dcWeb ∧
    gwOk.updateDC "demo" (pauseDC dcWeb) = Except.ok (pauseDC dcWeb) ∧
    mNoAlloc.convert = some convertNoAlloc ∧
    convertNoAlloc (pauseDC dcWeb) none = Except.ok none ∧
    runOne mNoAlloc gwOk "web" =
      (Outcome.panicked PanicReason.nilPointerDeref,
       [Event.get "demo" "web", Event.update (pauseDC dcWeb),
        Event.convertCall (pauseDC dcWeb) none]) :=
  ⟨rfl, rfl, rfl, rfl,
    runOne_nil_target_deref mNoAlloc gwOk "web" convertNoAlloc dcWeb
      (pauseDC dcWeb) rfl rfl rfl rfl⟩

/-- Claim C2: the convert and migrateHistory function fields are assigned
nowhere in the program — NewMigrateCommand sets only the Output writer — so
every Run over the options the program actually builds, given a non-empty
name list whose initial fetch and pause update succeed, reaches line 115 and
calls a nil function value, panicking there. -/
theorem Run_nil_convert_field_panics (ns name : String) (rest : List String)
    (gw : Gateway) (dc0 dcU : DeploymentConfig)
    (hget : gw.getDC ns name = Except.ok dc0)
    (hupd : gw.updateDC ns (pauseDC dc0) = Except.ok dcU) :
    (newMigrateOptions ns (name :: rest)).Run gw =
      (Outcome.panicked PanicReason.nilFunctionCall,
       [Event.get ns name, Event.update (pauseDC dc0)]) := by
  have h1 : runOne (newMigrateOptions ns (name :: rest)) gw name =
      (Outcome.panicked PanicReason.nilFunctionCall,
       [Event.get ns name, Event.update (pauseDC dc0)]) := by
    simp only [runOne, newMigrateOptions, hget, hupd]
  have hnames : (newMigrateOptions ns (name :: rest)).DeploymentConfigNames
      = name :: rest := rfl
  unfold MigrateOptions.Run
  rw [hnames]
  simp only [runList, h1]

/-- Witness for C2: the program-built options over name web panic with a nil
function call at the convert step. -/
theorem Run_nil_convert_field_panics_witness :
    gwOk.getDC "demo" "web" = Except.ok dcWeb ∧
    gwOk.updateDC "demo" (pauseDC dcWeb) = Except.ok (pauseDC dcWeb) ∧
    (newMigrateOptions "demo" ["web"]).Run gwOk =
      (Outcome.panicked PanicReason.nilFunctionCall,
       [Event.get "demo" "web", Event.update (pauseDC dcWeb)]) :=
  ⟨rfl, rfl,
    Run_nil_convert_field_panics "demo" "web" [] gwOk dcWeb (pauseDC dcWeb)
      rfl rfl⟩

/-- Claim C9: Validate derives the name list from the raw os.Args tail
rather than from parsed positional arguments: the usage error fires exactly
when no token at all follows the program name, and otherwise every following
token — flag tokens and their values included — becomes part of
DeploymentConfigNames; the final conjunct shows a kubeconfig flag and its
value landing in the name list. -/
theorem Validate_uses_raw_os_args (m : MigrateOptions) (prog : String)
    (rest : List String) :
    (m.Validate (prog :: rest) =
      if rest = [] then
        Except.error "deployment config name(s) must be specified\n"
      else Except.ok { m with DeploymentConfigNames := rest }) ∧
    m.Validate ["migrate-to-deployment", "--kubeconfig", "/root/.kube/config", "web"] =
      Except.ok { m with
        DeploymentConfigNames := ["--kubeconfig", "/root/.kube/config", "web"] } := by
  constructor
  · cases rest with
    | nil => rfl
    | cons a l => rfl
  · rfl

/-- Claim C8 refers to validation rejecting any invocation that supplies
zero legacy-config names. Evaluating Validate at an invocation supplying a
namespace flag and zero names shows the code accepting it instead and
recording the flag tokens as the name list: the usage check looks only at
the raw argument count. -/
theorem Validate_zero_names_with_flag_accepted :
    (newMigrateOptions "" []).Validate ["migrate-to-deployment", "-n", "demo"] =
      Except.ok (newMigrateOptions "" ["-n", "demo"]) := rfl

/-- Inversion of a successful iteration: when the loop body for a name
completes normally, every one of the six steps succeeded and the trace is
exactly the six gateway operations in source order, with the payloads
chained as the source chains them (the update argument is the fetched config
paused, the convert target is the nil pointer, the create argument is the
converter output forced paused, and migrateHistory receives the deployment
returned by Create together with the listed items). -/
theorem runOne_ok_shape (m : MigrateOptions) (gw : Gateway) (name : String)
    (h : (runOne m gw name).1 = Outcome.ok) :
    ∃ dc0 dcU f d0 newDeployment rcs g,
      gw.getDC m.Namespace name = Except.ok dc0 ∧
      gw.updateDC m.Namespace (pauseDC dc0) = Except.ok dcU ∧
      m.convert = some f ∧
      f (pauseDC dc0) none = Except.ok (some d0) ∧
      gw.createDeployment m.Namespace (pauseDeployment d0) = Except.ok newDeployment ∧
      gw.listRCs m.Namespace (selectorFor (pauseDC dc0).Name) = Except.ok rcs ∧
      m.migrateHistory = some g ∧
      g newDeployment rcs = Except.ok () ∧
      runOne m gw name =
        (Outcome.ok,
         [Event.get m.Namespace name, Event.update (pauseDC dc0),
          Event.convertCall (pauseDC dc0) none,
          Event.create (pauseDeployment d0),
          Event.list m.Namespace (selectorFor (pauseDC dc0).Name),
          Event.migrateHistoryCall newDeployment rcs]) := by
  cases hget : gw.getDC m.Namespace name with
  | error e => simp only [runOne, hget] at h; exact Outcome.noConfusion h
  | ok dc0 =>
  cases hupd : gw.updateDC m.Namespace (pauseDC dc0) with
  | error e => simp only [runOne, hget, hupd] at h; exact Outcome.noConfusion h
  | ok dcU =>
  cases hconv : m.convert with
  | none => simp only [runOne, hget, hupd, hconv] at h; exact Outcome.noConfusion h
  | some f =>
  cases hf : f (pauseDC dc0) none with
  | error e =>
      simp only [runOne, hget, hupd, hconv, hf] at h; exact Outcome.noConfusion h
  | ok popt =>
  cases popt with
  | none =>
      simp only [runOne, hget, hupd, hconv, hf] at h; exact Outcome.noConfusion h
  | some d0 =>
  cases hcr : gw.createDeployment m.Namespace (pauseDeployment d0) with
  | error e =>
      simp only [runOne, hget, hupd, hconv, hf, hcr] at h
      exact Outcome.noConfusion h
  | ok newD =>
  cases hls : gw.listRCs m.Namespace (selectorFor (pauseDC dc0).Name) with
  | error e =>
      simp only [runOne, hget, hupd, hconv, hf, hcr, hls] at h
      exact Outcome.noConfusion h
  | ok rcs =>
  cases hmh : m.migrateHistory with
  | none =>
      simp only [runOne, hget, hupd, hconv, hf, hcr, hls, hmh] at h
      exact Outcome.noConfusion h
  | some g =>
  cases hg : g newD rcs with
  | error e =>
      simp only [runOne, hget, hupd, hconv, hf, hcr, hls, hmh, hg] at h
      exact Outcome.noConfusion h
  | ok u =>
  cases u
  exact ⟨dc0, dcU, f, d0, newD, rcs, g, rfl, hupd, rfl, hf, hcr, hls, rfl, hg,
    by simp only [runOne, hget, hupd, hconv, hf, hcr, hls, hmh, hg]⟩

/-- Every create event an iteration emits carries a deployment whose Paused
flag is true: line 121 forces the flag before the only Create call site. -/
theorem create_mem_runOne_paused (m : MigrateOptions) (gw : Gateway)
    (name : String) (d : Deployment)
    (hmem : Event.create d ∈ (runOne m gw name).2) : d.Spec.Paused = true := by
  cases hget : gw.getDC m.Namespace name with
  | error e => simp only [runOne, hget] at hmem; simp at hmem
  | ok dc0 =>
  cases hupd : gw.updateDC m.Namespace (pauseDC dc0) with
  | error e => simp only [runOne, hget, hupd] at hmem; simp at hmem
  | ok dcU =>
  cases hconv : m.convert with
  | none => simp only [runOne, hget, hupd, hconv] at hmem; simp at hmem
  | some f =>
  cases hf : f (pauseDC dc0) none with
  | error e => simp only [runOne, hget, hupd, hconv, hf] at hmem; simp at hmem
  | ok popt =>
  cases popt with
  | none => simp only [runOne, hget, hupd, hconv, hf] at hmem; simp at hmem
  | some d0 =>
  cases hcr : gw.createDeployment m.Namespace (pauseDeployment d0) with
  | error e =>
      simp only [runOne, hget, hupd, hconv, hf, hcr] at hmem
      simp at hmem
      rw [hmem]
      rfl
  | ok newD =>
  cases hls : gw.listRCs m.Namespace (selectorFor (pauseDC dc0).Name) with
  | error e =>
      simp only [runOne, hget, hupd, hconv, hf, hcr, hls] at hmem
      simp at hmem
      rw [hmem]
      rfl
  | ok rcs =>
  cases hmh : m.migrateHistory with
  | none =>
      simp only [runOne, hget, hupd, hconv, hf, hcr, hls, hmh] at hmem
      simp at hmem
      rw [hmem]
      rfl
  | some g =>
  cases hg : g newD rcs with
  | error e =>
      simp only [runOne, hget, hupd, hconv, hf, hcr, hls, hmh, hg] at hmem
      simp at hmem
      rw [hmem]
      rfl
  | ok u =>
      cases u
      simp only [runOne, hget, hupd, hconv, hf, hcr, hls, hmh, hg] at hmem
      simp at hmem
      rw [hmem]
      rfl

/-- Lifts create_mem_runOne_paused through the loop. -/
theorem create_mem_runList_paused (m : MigrateOptions) (gw : Gateway)
    (names : List String) (d : Deployment)
    (hmem : Event.create d ∈ (runList m gw names).2) : d.Spec.Paused = true := by
  induction names with
  | nil => simp [runList] at hmem
  | cons name rest ih =>
    cases ho : (runOne m gw name).1 with
    | ok =>
      have htr : (runList m gw (name :: rest)).2 =
          (runOne m gw name).2 ++ (runList m gw rest).2 := by
        simp only [runList, ho]
      rw [htr] at hmem
      rcases List.mem_append.1 hmem with h1 | h2
      · exact create_mem_runOne_paused m gw name d h1
      · exact ih h2
    | goError e =>
      have htr : (runList m gw (name :: rest)).2 = (runOne m gw name).2 := by
        simp only [runList, ho]
      rw [htr] at hmem
      exact create_mem_runOne_paused m gw name d hmem
    | panicked r =>
      have htr : (runList m gw (name :: rest)).2 = (runOne m gw name).2 := by
        simp only [runList, ho]
      rw [htr] at hmem
      exact create_mem_runOne_paused m gw name d hmem

/-- When every name's iteration completes normally, the loop completes
normally and its trace is the in-order concatenation of the per-name
traces. -/
theorem runList_all_ok (m : MigrateOptions) (gw : Gateway) (names : List String)
    (h : ∀ n ∈ names, (runOne m gw n).1 = Outcome.ok) :
    runList m gw names = (Outcome.ok, tracesOf m gw names) := by
  induction names with
  | nil => rfl
  | cons name rest ih =>
    have h1 : (runOne m gw name).1 = Outcome.ok :=
      h name (List.mem_cons_self name rest)
    have ih2 := ih (fun q hq => h q (List.mem_cons_of_mem _ hq))
    simp only [runList, tracesOf, h1, ih2]

/-- When the names before n all succeed and n's iteration returns an error,
the loop returns that error at once: its trace is the prefix traces followed
by n's partial trace, and the names after n contribute nothing. -/
theorem runList_append_fails (m : MigrateOptions) (gw : Gateway)
    (pre : List String) (n : String) (post : List String) (e : GoErr)
    (hpre : ∀ p ∈ pre, (runOne m gw p).1 = Outcome.ok)
    (hn : (runOne m gw n).1 = Outcome.goError e) :
    runList m gw (pre ++ n :: post) =
      (Outcome.goError e, tracesOf m gw pre ++ (runOne m gw n).2) := by
  induction pre with
  | nil => simp only [List.nil_append, runList, hn, tracesOf]
  | cons p rest ih =>
    have h1 : (runOne m gw p).1 = Outcome.ok :=
      hpre p (List.mem_cons_self p rest)
    have ih2 := ih (fun q hq => hpre q (List.mem_cons_of_mem _ hq))
    simp only [List.cons_append, runList, List.append_eq, h1, ih2, tracesOf,
      List.append_assoc]

/-- A successful iteration emits exactly one event of each of the six kinds,
six events in all. -/
theorem runOne_ok_counts (m : MigrateOptions) (gw : Gateway) (name : String)
    (h : (runOne m gw name).1 = Outcome.ok) :
    (runOne m gw name).2.countP Event.isGet = 1 ∧
    (runOne m gw name).2.countP Event.isUpdate = 1 ∧
    (runOne m gw name).2.countP Event.isCreate = 1 ∧
    (runOne m gw name).2.countP Event.isList = 1 ∧
    (runOne m gw name).2.countP Event.isConvertCall = 1 ∧
    (runOne m gw name).2.countP Event.isMigrateHistoryCall = 1 ∧
    (runOne m gw name).2.length = 6 := by
  obtain ⟨dc0, dcU, f, d0, newD, rcs, g, h1, h2, h3, h4, h5, h6, h7, h8, heq⟩ :=
    runOne_ok_shape m gw name h
  rw [heq]
  exact ⟨rfl, rfl, rfl, rfl, rfl, rfl, rfl⟩

/-- Event counts over the concatenated traces: one matching event per name
gives as many matches as names. -/
theorem tracesOf_countP (m : MigrateOptions) (gw : Gateway) (p : Event → Bool)
    (names : List String)
    (hone : ∀ n ∈ names, (runOne m gw n).2.countP p = 1) :
    (tracesOf m gw names).countP p = names.length := by
  induction names with
  | nil => rfl
  | cons name rest ih =>
    have h1 := hone name (List.mem_cons_self name rest)
    have ih2 := ih (fun q hq => hone q (List.mem_cons_of_mem _ hq))
    simp only [tracesOf, List.countP_append, h1, ih2, List.length_cons]
    omega

/-- Six events per name gives six times as many events as names. -/
theorem tracesOf_length (m : MigrateOptions) (gw : Gateway) (names : List String)
    (hone : ∀ n ∈ names, (runOne m gw n).2.length = 6) :
    (tracesOf m gw names).length = 6 * names.length := by
  induction names with
  | nil => rfl
  | cons name rest ih =>
    have h1 := hone name (List.mem_cons_self name rest)
    have ih2 := ih (fun q hq => hone q (List.mem_cons_of_mem _ hq))
    simp only [tracesOf, List.length_append, h1, ih2, List.length_cons]
    omega

/-- Claim C3: every NativeDeployment the orchestrator passes to the create
operation has its Paused flag true — line 121 forces the flag
unconditionally between the convert call and the Create call — even when
the converter returned it with Paused false. Formally: every create event
in any Run trace carries a paused deployment. -/
theorem Run_created_deployment_paused (m : MigrateOptions) (gw : Gateway)
    (d : Deployment) (hmem : Event.create d ∈ (m.Run gw).2) :
    d.Spec.Paused = true :=
  create_mem_runList_paused m gw m.DeploymentConfigNames d hmem

/-- Witness for C3: the allocating converter returns the web deployment with
Paused false, yet the Run trace contains the create call with Paused forced
true. -/
theorem Run_created_deployment_paused_witness :
    convertAlloc (pauseDC dcWeb) none = Except.ok (some dWebUnpaused) ∧
    dWebUnpaused.Spec.Paused = false ∧
    Event.create dWebPaused ∈ (mAlloc.Run gwOk).2 ∧
    dWebPaused.Spec.Paused = true :=
  ⟨rfl, rfl, by decide, Run_created_deployment_paused mAlloc gwOk _ (by decide)⟩

/-- Claim C4: for each name processed, when every step succeeds the gateway
operations happen in exactly this order with none skipped: fetch the legacy
config, persist its paused update, convert, create the native deployment,
list the revision snapshots, then invoke history migration — with the
payloads chained as the source chains them. -/
theorem runOne_steps_in_source_order (m : MigrateOptions) (gw : Gateway)
    (name : String) (h : (runOne m gw name).1 = Outcome.ok) :
    ∃ dc0 dcU f d0 newDeployment rcs g,
      gw.getDC m.Namespace name = Except.ok dc0 ∧
      gw.updateDC m.Namespace (pauseDC dc0) = Except.ok dcU ∧
      m.convert = some f ∧
      f (pauseDC dc0) none = Except.ok (some d0) ∧
      gw.createDeployment m.Namespace (pauseDeployment d0) = Except.ok newDeployment ∧
      gw.listRCs m.Namespace (selectorFor (pauseDC dc0).Name) = Except.ok rcs ∧
      m.migrateHistory = some g ∧
      g newDeployment rcs = Except.ok () ∧
      runOne m gw name =
        (Outcome.ok,
         [Event.get m.Namespace name, Event.update (pauseDC dc0),
          Event.convertCall (pauseDC dc0) none,
          Event.create (pauseDeployment d0),
          Event.list m.Namespace (selectorFor (pauseDC dc0).Name),
          Event.migrateHistoryCall newDeployment rcs]) :=
  runOne_ok_shape m gw name h

/-- Witness for C4: processing web with the all-success fixtures completes
normally, so the six steps happened in source order. -/
theorem runOne_steps_in_source_order_witness :
    (runOne mAlloc gwOk "web").1 = Outcome.ok ∧
    (∃ dc0 dcU f d0 newDeployment rcs g,
      gwOk.getDC mAlloc.Namespace "web" = Except.ok dc0 ∧
      gwOk.updateDC mAlloc.Namespace (pauseDC dc0) = Except.ok dcU ∧
      mAlloc.convert = some f ∧
      f (pauseDC dc0) none = Except.ok (some d0) ∧
      gwOk.createDeployment mAlloc.Namespace (pauseDeployment d0) = Except.ok newDeployment ∧
      gwOk.listRCs mAlloc.Namespace (selectorFor (pauseDC dc0).Name) = Except.ok rcs ∧
      mAlloc.migrateHistory = some g ∧
      g newDeployment rcs = Except.ok () ∧
      runOne mAlloc gwOk "web" =
        (Outcome.ok,
         [Event.get mAlloc.Namespace "web", Event.update (pauseDC dc0),
          Event.convertCall (pauseDC dc0) none,
          Event.create (pauseDeployment d0),
          Event.list mAlloc.Namespace (selectorFor (pauseDC dc0).Name),
          Event.migrateHistoryCall newDeployment rcs])) :=
  ⟨rfl, runOne_steps_in_source_order mAlloc gwOk "web" rfl⟩

/-- Claim C5: every error returned by a step is fatal to the whole run: Run
returns it at once, the names after the failing one are never begun, and no
compensating operation is appended — the final trace is exactly the prefix
traces plus the failing name's partial trace, so side effects already
applied (such as the pause update when the create step fails with
AlreadyExists) stay in place. -/
theorem Run_error_is_fatal (m : MigrateOptions) (gw : Gateway)
    (pre post : List String) (n : String) (e : GoErr)
    (hnames : m.DeploymentConfigNames = pre ++ n :: post)
    (hpre : ∀ p ∈ pre, (runOne m gw p).1 = Outcome.ok)
    (hn : (runOne m gw n).1 = Outcome.goError e) :
    m.Run gw = (Outcome.goError e, tracesOf m gw pre ++ (runOne m gw n).2) := by
  unfold MigrateOptions.Run
  rw [hnames]
  exact runList_append_fails m gw pre n post e hpre hn

/-- Witness for C5: with the create step failing AlreadyExists on web, the
run fails there, api is never begun, and the pause update of web remains in
the final trace. -/
theorem Run_error_is_fatal_witness :
    mCreateFails.DeploymentConfigNames = [] ++ "web" :: ["api"] ∧
    (∀ p ∈ ([] : List String), (runOne mCreateFails gwCreateFails p).1 = Outcome.ok) ∧
    (runOne mCreateFails gwCreateFails "web").1 =
      Outcome.goError (GoErr.alreadyExists "demo" "web") ∧
    mCreateFails.Run gwCreateFails =
      (Outcome.goError (GoErr.alreadyExists "demo" "web"),
       tracesOf mCreateFails gwCreateFails [] ++
         (runOne mCreateFails gwCreateFails "web").2) ∧
    Event.update (pauseDC dcWeb) ∈ (mCreateFails.Run gwCreateFails).2 :=
  ⟨rfl, by simp, rfl,
    Run_error_is_fatal mCreateFails gwCreateFails [] ["api"] "web"
      (GoErr.alreadyExists "demo" "web") rfl (by simp) rfl,
    by decide⟩

/-- Claim C6: a revision-snapshot list that comes back with zero matches is
not an error: the iteration proceeds, history migration is still invoked —
with the empty snapshot list — and the iteration completes normally. -/
theorem runOne_empty_snapshot_list_ok (m : MigrateOptions) (gw : Gateway)
    (name : String) (f : ConvertFn) (g : MigrateHistoryFn)
    (dc0 dcU : DeploymentConfig) (d0 newDeployment : Deployment)
    (hget : gw.getDC m.Namespace name = Except.ok dc0)
    (hupd : gw.updateDC m.Namespace (pauseDC dc0) = Except.ok dcU)
    (hconv : m.convert = some f)
    (hf : f (pauseDC dc0) none = Except.ok (some d0))
    (hcr : gw.createDeployment m.Namespace (pauseDeployment d0) = Except.ok newDeployment)
    (hls : gw.listRCs m.Namespace (selectorFor (pauseDC dc0).Name) = Except.ok [])
    (hmh : m.migrateHistory = some g)
    (hg : g newDeployment [] = Except.ok ()) :
    runOne m gw name =
      (Outcome.ok,
       [Event.get m.Namespace name, Event.update (pauseDC dc0),
        Event.convertCall (pauseDC dc0) none,
        Event.create (pauseDeployment d0),
        Event.list m.Namespace (selectorFor (pauseDC dc0).Name),
        Event.migrateHistoryCall newDeployment []]) := by
  simp only [runOne, hget, hupd, hconv, hf, hcr, hls, hmh, hg]

/-- Witness for C6: the gateway fixture finds no replication controllers for
web, and the iteration still completes with history migration invoked on the
empty list. -/
theorem runOne_empty_snapshot_list_ok_witness :
    gwOk.listRCs mAlloc.Namespace (selectorFor (pauseDC dcWeb).Name) =
      Except.ok [] ∧
    mhOk dWebPaused [] = Except.ok () ∧
    runOne mAlloc gwOk "web" =
      (Outcome.ok,
       [Event.get mAlloc.Namespace "web", Event.update (pauseDC dcWeb),
        Event.convertCall (pauseDC dcWeb) none,
        Event.create (pauseDeployment dWebUnpaused),
        Event.list mAlloc.Namespace (selectorFor (pauseDC dcWeb).Name),
        Event.migrateHistoryCall dWebPaused []]) :=
  ⟨rfl, rfl,
    runOne_empty_snapshot_list_ok mAlloc gwOk "web" convertAlloc mhOk dcWeb
      (pauseDC dcWeb) dWebUnpaused dWebPaused rfl rfl rfl rfl rfl rfl rfl rfl⟩

/-- Claim C7: names are processed strictly sequentially and in exactly the
input-list order: when every name's steps succeed, Run completes normally
and its trace is the concatenation, in input order, of the per-name traces,
so all of one name's steps finish before the next name's first step. -/
theorem Run_names_in_input_order (m : MigrateOptions) (gw : Gateway)
    (h : ∀ n ∈ m.DeploymentConfigNames, (runOne m gw n).1 = Outcome.ok) :
    m.Run gw = (Outcome.ok, tracesOf m gw m.DeploymentConfigNames) :=
  runList_all_ok m gw m.DeploymentConfigNames h

/-- Witness for C7: with names web then api and the all-success fixtures,
Run's trace is web's six events followed by api's six events. -/
theorem Run_names_in_input_order_witness :
    (∀ n ∈ mAlloc.DeploymentConfigNames, (runOne mAlloc gwOk n).1 = Outcome.ok) ∧
    mAlloc.Run gwOk = (Outcome.ok, tracesOf mAlloc gwOk mAlloc.DeploymentConfigNames) :=
  ⟨by decide, Run_names_in_input_order mAlloc gwOk (by decide)⟩

/-- Claim C10: frame of externally observable side effects of a successful
run — per name exactly one update (the pause), one create (the native
deployment), one get, one list, one converter invocation and one
history-migration invocation; the trace length of six per name accounts for
every operation, so a successful run performs no delete and no write to the
revision-snapshot collection (its only operation there is the read-only
list). -/
theorem Run_side_effect_frame (m : MigrateOptions) (gw : Gateway)
    (h : ∀ n ∈ m.DeploymentConfigNames, (runOne m gw n).1 = Outcome.ok) :
    (m.Run gw).2.countP Event.isUpdate = m.DeploymentConfigNames.length ∧
    (m.Run gw).2.countP Event.isCreate = m.DeploymentConfigNames.length ∧
    (m.Run gw).2.countP Event.isGet = m.DeploymentConfigNames.length ∧
    (m.Run gw).2.countP Event.isList = m.DeploymentConfigNames.length ∧
    (m.Run gw).2.countP Event.isConvertCall = m.DeploymentConfigNames.length ∧
    (m.Run gw).2.countP Event.isMigrateHistoryCall = m.DeploymentConfigNames.length ∧
    (m.Run gw).2.length = 6 * m.DeploymentConfigNames.length := by
  have htr : (m.Run gw).2 = tracesOf m gw m.DeploymentConfigNames := by
    unfold MigrateOptions.Run
    rw [runList_all_ok m gw m.DeploymentConfigNames h]
  rw [htr]
  refine ⟨?_, ?_, ?_, ?_, ?_, ?_, ?_⟩
  · exact tracesOf_countP m gw _ _ (fun n hn => (runOne_ok_counts m gw n (h n hn)).2.1)
  · exact tracesOf_countP m gw _ _ (fun n hn => (runOne_ok_counts m gw n (h n hn)).2.2.1)
  · exact tracesOf_countP m gw _ _ (fun n hn => (runOne_ok_counts m gw n (h n hn)).1)
  · exact tracesOf_countP m gw _ _ (fun n hn => (runOne_ok_counts m gw n (h n hn)).2.2.2.1)
  · exact tracesOf_countP m gw _ _
      (fun n hn => (runOne_ok_counts m gw n (h n hn)).2.2.2.2.1)
  · exact tracesOf_countP m gw _ _
      (fun n hn => (runOne_ok_counts m gw n (h n hn)).2.2.2.2.2.1)
  · exact tracesOf_length m gw _
      (fun n hn => (runOne_ok_counts m gw n (h n hn)).2.2.2.2.2.2)

/-- Witness for C10: over names web and api with the all-success fixtures,
the run performs exactly two of each operation kind, twelve events in
all. -/
theorem Run_side_effect_frame_witness :
    (∀ n ∈ mAlloc.DeploymentConfigNames, (runOne mAlloc gwOk n).1 = Outcome.ok) ∧
    ((mAlloc.Run gwOk).2.countP Event.isUpdate = mAlloc.DeploymentConfigNames.length ∧
     (mAlloc.Run gwOk).2.countP Event.isCreate = mAlloc.DeploymentConfigNames.length ∧
     (mAlloc.Run gwOk).2.countP Event.isGet = mAlloc.DeploymentConfigNames.length ∧
     (mAlloc.Run gwOk).2.countP Event.isList = mAlloc.DeploymentConfigNames.length ∧
     (mAlloc.Run gwOk).2.countP Event.isConvertCall = mAlloc.DeploymentConfigNames.length ∧
     (mAlloc.Run gwOk).2.countP Event.isMigrateHistoryCall = mAlloc.DeploymentConfigNames.length ∧
     (mAlloc.Run gwOk).2.length = 6 * mAlloc.DeploymentConfigNames.length) :=
  ⟨by decide, Run_side_effect_frame mAlloc gwOk (by decide)⟩
